import Mathlib

set_option maxRecDepth 8192

/-!
# Verification of the hotel-booking-app-frontend client

Shallow embedding of the booking-form client (BookingForm.tsx,
BookingContext.tsx, ApiService.ts) and proofs about its validation
schema, submit handler, room-selection effect and state container.

Conventions of the embedding:
* A JavaScript `Date` is modelled by its local calendar fields
  (`getFullYear`, `getMonth`, `getDate`) plus the remaining time-of-day
  in milliseconds; JS `Date` comparison (by epoch milliseconds) is the
  lexicographic order on these fields for normalised dates.
* `null`/`undefined` field values are `Option.none`.
* The yup validation schema is translated test by test with yup's
  documented semantics: `required` rejects absent values (and the empty
  string for string schemas), `date().min(ref)` compares the value
  against the referenced date with JS `>=` and is skipped on absent
  values, and `string().matches(re)` without `excludeEmptyString` runs
  the regex on every present value, the empty string included.
* Effects (`useEffect` bodies, the submit handler) are pure functions
  from the current context state and the API outcome to the next
  context state plus the list of API calls issued.
-/

/-- A JavaScript `Date`, modelled by its local calendar components:
`year` is `getFullYear()`, `month` is `getMonth()` (0-based),
`day` is `getDate()` (1-based), and `msOfDay` is the time of day in
milliseconds. For normalised dates (`month < 12`, `day < 32`,
`msOfDay < 86400000`) the lexicographic order on these fields agrees
with the JS order on epoch milliseconds. -/
structure JSDate where
  year : Int
  month : Nat
  day : Nat
  msOfDay : Nat
  deriving DecidableEq, Repr

/-- JS strict `<` on `Date` values (epoch-millisecond order), as the
lexicographic order on the calendar fields. -/
def jsLt (a b : JSDate) : Bool :=
  decide (a.year < b.year) ||
    (a.year == b.year && (decide (a.month < b.month) ||
      (a.month == b.month && (decide (a.day < b.day) ||
        (a.day == b.day && decide (a.msOfDay < b.msOfDay))))))

/-- JS `>=` on `Date` values (epoch-millisecond order), written here as
`jsLe a b` for `a <= b`. -/
def jsLe (a b : JSDate) : Bool :=
  decide (a.year < b.year) ||
    (a.year == b.year && (decide (a.month < b.month) ||
      (a.month == b.month && (decide (a.day < b.day) ||
        (a.day == b.day && decide (a.msOfDay ≤ b.msOfDay))))))

/-- The JS epoch (1970-01-01T00:00): comparing a `Date` against `null`
with a relational operator coerces `null` to `+0` milliseconds, i.e. to
this date. -/
def epochDate : JSDate := ⟨1970, 0, 1, 0⟩

theorem jsLt_iff (a b : JSDate) : jsLt a b = true ↔
    (a.year < b.year ∨ (a.year = b.year ∧ (a.month < b.month ∨
      (a.month = b.month ∧ (a.day < b.day ∨
        (a.day = b.day ∧ a.msOfDay < b.msOfDay)))))) := by
  simp [jsLt]

theorem jsLe_iff (a b : JSDate) : jsLe a b = true ↔
    (a.year < b.year ∨ (a.year = b.year ∧ (a.month < b.month ∨
      (a.month = b.month ∧ (a.day < b.day ∨
        (a.day = b.day ∧ a.msOfDay ≤ b.msOfDay)))))) := by
  simp [jsLe]

theorem jsLe_iff_not_jsLt (a b : JSDate) :
    jsLe a b = true ↔ ¬ jsLt b a = true := by
  rw [jsLe_iff, jsLt_iff]
  omega

/-- `Room`, from `BookingContext.tsx`. -/
structure Room where
  id : String
  name : String
  price : Int
  description : String
  deriving DecidableEq, Repr

/-- `BookingFormValues` / `BookingFormData`: the five form fields from
`BookingForm.tsx` and `BookingContext.tsx`. Dates are `Date | null`;
the promo code is an optional string. -/
structure BookingFormValues where
  guest_name : String
  room_id : String
  check_in_date : Option JSDate
  check_out_date : Option JSDate
  promo_code : Option String
  deriving DecidableEq, Repr

/-- `initialFormData` from `BookingContext.tsx`: empty strings for the
text fields, `null` dates, and the empty string for the promo code. -/
def initialFormData : BookingFormValues :=
  { guest_name := ""
    room_id := ""
    check_in_date := none
    check_out_date := none
    promo_code := some "" }

/-! ## The yup validation schema (`schema` in BookingForm.tsx) -/

/-- `yup.string().required('Guest name is required')`: a present,
non-empty string. -/
def guestNameFieldValid (s : String) : Bool := s ≠ ""

/-- `yup.string().required('Please select a room')`. -/
def roomIdFieldValid (s : String) : Bool := s ≠ ""

/-- `yup.date().required('Check-in date is required').nullable()`:
`required` still rejects `null`/`undefined`, so the field passes
exactly when a date is present. No comparison with the current date is
performed by the schema. -/
def checkInFieldValid : Option JSDate → Bool
  | none => false
  | some _ => true

/-- Error message of the `min` test on `check_out_date`. -/
def checkOutMinMessage : String := "Check-out date must be after check-in date"

/-- `yup.date().min(yup.ref('check_in_date'), ...).required(...)
.nullable()` on `check_out_date`: `required` rejects an absent value;
the `min` test compares the value against the referenced check-in date
with JS `>=` (inclusive). When the referenced check-in date is absent
the JS comparison coerces `null` to the epoch. -/
def checkOutFieldValid (ci co : Option JSDate) : Bool :=
  match co with
  | none => false
  | some b =>
    match ci with
    | some a => jsLe a b
    | none => jsLe epochDate b

/-- Character class `[A-Z0-9]` of the promo-code regex. -/
def isPromoChar (c : Char) : Bool :=
  ('A' ≤ c && c ≤ 'Z') || ('0' ≤ c && c ≤ '9')

/-- Operational matcher for the anchored regex `/^[A-Z0-9]{6,10}$/`:
consume characters of the class, counting them, and accept at the end
of the string when between 6 and 10 were consumed. -/
def promoMatchAux : List Char → Nat → Bool
  | [], n => decide (6 ≤ n) && decide (n ≤ 10)
  | c :: cs, n => isPromoChar c && decide (n < 10) && promoMatchAux cs (n + 1)

/-- `s.search(/^[A-Z0-9]{6,10}$/) !== -1`. -/
def promoRegexTest (s : String) : Bool := promoMatchAux s.data 0

/-- `yup.string().optional().matches(/^[A-Z0-9]{6,10}$/, ...)`:
yup's `matches` skips absent (`undefined`/`null`) values, but without
`excludeEmptyString: true` every present string — the empty string
included — is run through the regex. -/
def promoFieldValid : Option String → Bool
  | none => true
  | some s => promoRegexTest s

/-- The whole `schema`: all five field tests must pass. -/
def validateForm (f : BookingFormValues) : Bool :=
  guestNameFieldValid f.guest_name &&
    roomIdFieldValid f.room_id &&
    checkInFieldValid f.check_in_date &&
    checkOutFieldValid f.check_in_date f.check_out_date &&
    promoFieldValid f.promo_code

/-- Characterisation of the regex matcher, generalised over the count
of already-consumed characters. -/
theorem promoMatchAux_eq_true (cs : List Char) :
    ∀ n, promoMatchAux cs n = true ↔
      (cs.all isPromoChar = true ∧ 6 ≤ n + cs.length ∧ n + cs.length ≤ 10) := by
  induction cs with
  | nil =>
    intro n
    simp [promoMatchAux]
  | cons c cs ih =>
    intro n
    simp only [promoMatchAux, Bool.and_eq_true, decide_eq_true_eq, ih (n + 1),
      List.all_cons, List.length_cons]
    constructor
    · rintro ⟨⟨hc, hlt⟩, hall, hlo, hhi⟩
      exact ⟨⟨hc, hall⟩, by omega, by omega⟩
    · rintro ⟨⟨hc, hall⟩, hlo, hhi⟩
      exact ⟨⟨hc, by omega⟩, hall, by omega, by omega⟩

/-- A present promo code passes the regex exactly when it is 6 to 10
characters long and made of uppercase letters and digits. -/
theorem promoRegexTest_eq_true (s : String) :
    promoRegexTest s = true ↔
      (s.data.all isPromoChar = true ∧ 6 ≤ s.length ∧ s.length ≤ 10) := by
  rw [promoRegexTest, promoMatchAux_eq_true s.data 0,
    show s.length = s.data.length from rfl]
  norm_num

/-! ## Context state and effects -/

/-- The state held by `BookingProvider` in `BookingContext.tsx`: one
field per `useState` hook, in source order. -/
structure ContextState where
  rooms : List Room
  selectedRoom : Option Room
  bookingData : BookingFormValues
  unavailableDates : List JSDate
  isLoading : Bool
  error : Option String
  success : Option String
  deriving DecidableEq, Repr

/-- The default context value from `BookingContext.tsx`: empty room
list, no selected room, `initialFormData`, no unavailable dates, not
loading, no error, no success message. -/
def defaultContextState : ContextState :=
  { rooms := []
    selectedRoom := none
    bookingData := initialFormData
    unavailableDates := []
    isLoading := false
    error := none
    success := none }

/-- The names of the `useState` cells of `BookingProvider`, in source
order. -/
def providerStateCells : List String :=
  ["rooms", "selectedRoom", "bookingData", "unavailableDates",
   "isLoading", "error", "success"]

/-- A call made through `ApiService`. -/
inductive ApiCall where
  | getRooms
  | getUnavailableDates (roomId : String)
  | createBooking (data : BookingFormValues)
  deriving DecidableEq, Repr

/-- Outcome of `ApiService.createBooking` as observed by the submit
handler: success, or a rejection whose `err.response?.data` carries an
optional `message` and, when structured, an `errors` object (a list of
field-name/message-list pairs). A rejection without a usable response
body is `err none none`. -/
inductive ApiResponse where
  | ok
  | err (message : Option String) (errors : Option (List (String × List String)))
  deriving DecidableEq, Repr

/-- The keys of the submitted `data` object (`field in data` in the
catch handler): the five form fields. -/
def dataFields : List String :=
  ["guest_name", "room_id", "check_in_date", "check_out_date", "promo_code"]

/-- Result of running the submit handler: the context state afterwards
and the manual field errors set through `setFormError`, in order. -/
structure SubmitResult where
  state : ContextState
  formErrors : List (String × String)
  deriving DecidableEq, Repr

/-- One step of the catch handler's `Object.entries(apiErrors).forEach`:
when the key is a field of the submitted `data` and the message list is
non-empty, `setFormError` records the first message for that field. -/
def apiErrorStep (acc : List (String × String)) (fe : String × List String) :
    List (String × String) :=
  if fe.1 ∈ dataFields ∧ fe.2 ≠ [] then acc ++ [(fe.1, fe.2.headD "")] else acc

/-- `onSubmit` from `BookingForm.tsx`, as a pure function of the
context state, the validated form data and the `createBooking`
outcome. The prologue sets loading, clears the error and success
messages; on success it stores the success message and the booking
data; on a rejection with a structured `errors` object it sets the
general error to the response message (or `'Validation failed'`) and,
for every entry whose key is a field of `data` with a non-empty
message list, sets that field's manual error to the first message; on
any other rejection it sets a general error; `finally` clears the
loading flag. -/
def onSubmit (s : ContextState) (data : BookingFormValues)
    (resp : ApiResponse) : SubmitResult :=
  let s0 := { s with isLoading := true, error := none, success := none }
  match resp with
  | .ok =>
      { state := { s0 with
          success := some "Booking created successfully!"
          bookingData := data
          isLoading := false }
        formErrors := [] }
  | .err msg (some errs) =>
      { state := { s0 with
          error := some (msg.getD "Validation failed")
          isLoading := false }
        formErrors := errs.foldl apiErrorStep [] }
  | .err msg none =>
      { state := { s0 with
          error := some (msg.getD "Failed to create booking. Please try again.")
          isLoading := false }
        formErrors := [] }

/-- `handleSubmit(onSubmit)` with `resolver: yupResolver(schema)`
(react-hook-form): the resolver validates the form data against the
schema first; only when validation succeeds is `onSubmit` invoked —
and with it the `createBooking` call; otherwise nothing is posted and
the handler is not run. Returns the submit result together with the
list of API calls issued. -/
def handleSubmitRun (s : ContextState) (data : BookingFormValues)
    (resp : ApiResponse) : SubmitResult × List ApiCall :=
  if validateForm data then
    (onSubmit s data resp, [ApiCall.createBooking data])
  else
    ({ state := s, formErrors := [] }, [])

/-- The `fetchUnavailableDates` effect from `BookingForm.tsx`, run when
the watched `room_id` changes, as a pure function of the context
state, the watched room id and the fetched dates. An empty (falsy)
room id returns immediately; otherwise the effect fetches the
unavailable dates for the room, stores them, and sets the selected
room to the first room of the list with that id (`find ... || null`).
Returns the next state and the API calls issued. -/
def fetchUnavailableDatesEffect (s : ContextState) (roomId : String)
    (fetched : List JSDate) : ContextState × List ApiCall :=
  if roomId = "" then (s, [])
  else
    ({ s with
        error := none
        unavailableDates := fetched
        selectedRoom := s.rooms.find? (fun r => r.id == roomId)
        isLoading := false },
      [ApiCall.getUnavailableDates roomId])

/-- `isDateUnavailable` from `BookingForm.tsx`: some stored unavailable
date has the same `getFullYear`, `getMonth` and `getDate` as the given
date. -/
def isDateUnavailable (unavailableDates : List JSDate) (date : JSDate) : Bool :=
  unavailableDates.any (fun u =>
    u.year == date.year && u.month == date.month && u.day == date.day)

/-- `minDate` prop of the check-in `DatePicker` in `BookingForm.tsx`:
the current date. This is the only place the current date enters the
component; the validation schema never mentions it. -/
def checkInPickerMinDate (now : JSDate) : JSDate := now

/-! ## Sample data and helper lemmas -/

/-- A fully-filled, schema-valid form. -/
def sampleValidForm : BookingFormValues :=
  { guest_name := "John Doe"
    room_id := "1"
    check_in_date := some ⟨2026, 9, 11, 0⟩
    check_out_date := some ⟨2026, 9, 12, 0⟩
    promo_code := some "SUMMER123" }

/-- A form whose other fields are valid and whose promo code was left
at its initial value, the empty string. -/
def emptyPromoForm : BookingFormValues :=
  { guest_name := "John Doe"
    room_id := "1"
    check_in_date := some ⟨2026, 9, 11, 0⟩
    check_out_date := some ⟨2026, 9, 12, 0⟩
    promo_code := some "" }

/-- A form whose check-in date (January 15, 2020) lies strictly before
the sample current date used below (October 11, 2026). -/
def pastCheckInForm : BookingFormValues :=
  { guest_name := "John Doe"
    room_id := "1"
    check_in_date := some ⟨2020, 0, 15, 0⟩
    check_out_date := some ⟨2020, 0, 16, 0⟩
    promo_code := none }

/-- A sample room, as produced by `ApiService.getRooms`. -/
def sampleRoom : Room :=
  { id := "1"
    name := "Room 101 (Standard)"
    price := 100
    description := "A comfortable standard room" }

/-- Entries already accumulated by the error-mapping fold are kept. -/
theorem apiErrors_foldl_mono (es : List (String × List String)) :
    ∀ (acc : List (String × String)) (p : String × String), p ∈ acc →
      p ∈ es.foldl apiErrorStep acc := by
  induction es with
  | nil => exact fun acc p hp => hp
  | cons e es ih =>
    intro acc p hp
    rw [List.foldl_cons]
    apply ih
    rw [apiErrorStep]
    by_cases h : e.1 ∈ dataFields ∧ e.2 ≠ []
    · rw [if_pos h]; exact List.mem_append_left _ hp
    · rwa [if_neg h]

/-- Every entry of the API `errors` object whose key is a field of the
submitted data and whose message list is non-empty contributes its
first message to the fold's result. -/
theorem apiErrors_foldl_mem :
    ∀ (errs : List (String × List String)) (acc : List (String × String))
      (field : String) (msgs : List String),
      (field, msgs) ∈ errs → field ∈ dataFields → msgs ≠ [] →
      (field, msgs.headD "") ∈ errs.foldl apiErrorStep acc := by
  intro errs
  induction errs with
  | nil => intro acc field msgs hmem; cases hmem
  | cons e es ih =>
    intro acc field msgs hmem hf hm
    rw [List.foldl_cons]
    rcases List.mem_cons.mp hmem with he | hes
    · rw [← he, apiErrorStep, if_pos ⟨hf, hm⟩]
      exact apiErrors_foldl_mono es _ _
        (List.mem_append_right _ (List.mem_singleton_self _))
    · exact ih _ field msgs hes hf hm

/-! ## C1 : the promo-code regex -/

/-- Formalisation of the spec's words for C1: an alphanumeric character
(letter of either case, or digit). -/
def isAlphanumChar (c : Char) : Bool :=
  ('A' ≤ c && c ≤ 'Z') || ('a' ≤ c && c ≤ 'z') || ('0' ≤ c && c ≤ '9')

/-- Formalisation of the spec's words for C1: matching an alphanumeric
pattern of one fixed length `L`. -/
def matchesFixedLengthAlphanum (L : Nat) (s : String) : Bool :=
  s.length == L && s.data.all isAlphanumChar

/-- C1, counterexample: there is no single fixed length `L` such that a
non-empty promo code passes validation exactly when it is alphanumeric
of length `L`: the codes AAAAAA (length 6) and AAAAAAA (length 7) both
pass, so the accepted lengths are not one fixed value — the regex is
`/^[A-Z0-9]{6,10}$/`, a length range. -/
theorem C1_counterexample :
    ¬ ∃ L : Nat, ∀ s : String, s ≠ "" →
      (promoFieldValid (some s) = true ↔
        matchesFixedLengthAlphanum L s = true) := by
  rintro ⟨L, h⟩
  have h6 := (h "AAAAAA" (by decide)).mp (by decide)
  have h7 := (h "AAAAAAA" (by decide)).mp (by decide)
  simp only [matchesFixedLengthAlphanum, Bool.and_eq_true, beq_iff_eq] at h6 h7
  have e6 : ("AAAAAA" : String).length = 6 := rfl
  have e7 : ("AAAAAAA" : String).length = 7 := rfl
  omega

/-- C1 (amended): a non-empty promo code passes validation exactly when
it consists of uppercase letters and digits only and its length is
between 6 and 10 characters inclusive — a fixed-character-class,
bounded-length-range regex rather than a single fixed length. -/
theorem C1_promo_code_regex (s : String) (_hne : s ≠ "") :
    promoFieldValid (some s) = true ↔
      (6 ≤ s.length ∧ s.length ≤ 10 ∧ s.data.all isPromoChar = true) := by
  show promoRegexTest s = true ↔ _
  rw [promoRegexTest_eq_true]
  tauto

/-- Witness for C1 at the promo code SUMMER123 used by the repo's own
submission test. -/
theorem C1_promo_code_regex_witness :
    promoFieldValid (some "SUMMER123") = true ↔
      (6 ≤ ("SUMMER123" : String).length ∧ ("SUMMER123" : String).length ≤ 10 ∧
        ("SUMMER123" : String).data.all isPromoChar = true) :=
  C1_promo_code_regex "SUMMER123" (by decide)

/-! ## C2 : the promo code is documented as optional but the empty
string is rejected -/

/-- C2: the README, the field label and the schema's `optional()` all
state the promo code is optional, and its initial value is the empty
string; yet on a form whose other four fields pass, the schema rejects
the untouched empty promo code, because `matches` without
`excludeEmptyString: true` runs `/^[A-Z0-9]{6,10}$/` on the empty
string. Consequently `handleSubmit` never reaches `onSubmit` and no
POST is made, while an omitted (`undefined`) promo code would pass. -/
theorem C2_empty_promo_code_rejected :
    emptyPromoForm.promo_code = some "" ∧
      guestNameFieldValid emptyPromoForm.guest_name = true ∧
      roomIdFieldValid emptyPromoForm.room_id = true ∧
      checkInFieldValid emptyPromoForm.check_in_date = true ∧
      checkOutFieldValid emptyPromoForm.check_in_date
        emptyPromoForm.check_out_date = true ∧
      validateForm emptyPromoForm = false ∧
      (handleSubmitRun defaultContextState emptyPromoForm ApiResponse.ok).2 = [] ∧
      promoFieldValid none = true ∧
      initialFormData.promo_code = some "" := by
  decide

/-! ## C3 : the check-out date rule -/

/-- C3: for present check-in and check-out dates, the check-out field
passes validation exactly when the check-out date is not earlier (in JS
date order) than the check-in date — an inclusive min comparison — and
the failure message states the check-out date must be after the
check-in date. -/
theorem C3_check_out_min_comparison (ci co : JSDate) :
    (checkOutFieldValid (some ci) (some co) = true ↔ ¬ jsLt co ci = true) ∧
      checkOutMinMessage = "Check-out date must be after check-in date" := by
  refine ⟨?_, rfl⟩
  show jsLe ci co = true ↔ ¬ jsLt co ci = true
  exact jsLe_iff_not_jsLt ci co

/-! ## C4 : structured API errors are mapped onto fields -/

/-- C4: when `createBooking` rejects with a body carrying an `errors`
object, the general error is set to the body's message (or `'Validation
failed'` when absent), and every entry whose key is a field of the
submitted data and whose message list is non-empty has its first
message recorded as that field's manual form error. -/
theorem C4_api_errors_mapped (s : ContextState) (data : BookingFormValues)
    (msg : Option String) (errs : List (String × List String))
    (field : String) (msgs : List String)
    (hmem : (field, msgs) ∈ errs) (hf : field ∈ dataFields) (hm : msgs ≠ []) :
    (onSubmit s data (ApiResponse.err msg (some errs))).state.error =
        some (msg.getD "Validation failed") ∧
      (field, msgs.headD "") ∈
        (onSubmit s data (ApiResponse.err msg (some errs))).formErrors :=
  ⟨rfl, apiErrors_foldl_mem errs [] field msgs hmem hf hm⟩

/-- Witness for C4 at the structured error body used by the repo's own
error-handling test. -/
theorem C4_api_errors_mapped_witness :
    (onSubmit defaultContextState sampleValidForm
        (ApiResponse.err (some "Validation failed")
          (some [("guest_name", ["Guest name is too short"]),
                 ("check_in_date", ["Invalid check-in date"])]))).state.error =
        some ((some "Validation failed").getD "Validation failed") ∧
      ("guest_name", (["Guest name is too short"] : List String).headD "") ∈
        (onSubmit defaultContextState sampleValidForm
          (ApiResponse.err (some "Validation failed")
            (some [("guest_name", ["Guest name is too short"]),
                   ("check_in_date", ["Invalid check-in date"])]))).formErrors :=
  C4_api_errors_mapped defaultContextState sampleValidForm
    (some "Validation failed")
    [("guest_name", ["Guest name is too short"]),
     ("check_in_date", ["Invalid check-in date"])]
    "guest_name" ["Guest name is too short"]
    (by decide) (by decide) (by decide)

/-! ## C5 : validation gates the POST -/

/-- C5: on a submission attempt, `createBooking` is issued only with
data satisfying the full schema, and when validation fails no API call
is made at all. -/
theorem C5_validate_before_post (s : ContextState) (data : BookingFormValues)
    (resp : ApiResponse) :
    (∀ d, ApiCall.createBooking d ∈ (handleSubmitRun s data resp).2 →
        validateForm d = true) ∧
      (validateForm data = false → (handleSubmitRun s data resp).2 = []) := by
  by_cases h : validateForm data = true
  · refine ⟨?_, ?_⟩
    · intro d hd
      rw [handleSubmitRun, if_pos h] at hd
      simp only [List.mem_singleton] at hd
      injection hd with hd'
      rwa [hd']
    · intro hf
      rw [h] at hf
      cases hf
  · refine ⟨?_, fun _ => ?_⟩
    · intro d hd
      rw [handleSubmitRun, if_neg h] at hd
      cases hd
    · rw [handleSubmitRun, if_neg h]

/-- Witness for C5: the sample valid form is posted by the pipeline and
indeed satisfies the schema. -/
theorem C5_validate_before_post_witness :
    validateForm sampleValidForm = true :=
  (C5_validate_before_post defaultContextState sampleValidForm ApiResponse.ok).1
    sampleValidForm (by decide)

/-! ## C6 : unavailable dates are a set of calendar days -/

/-- C6: `isDateUnavailable` holds exactly when some stored date shares
the year, month and day-of-month of the queried date, and the result is
unchanged under any alteration of the time-of-day of the queried date
or of the stored dates. -/
theorem C6_unavailable_dates_calendar (us : List JSDate) (d : JSDate) :
    (isDateUnavailable us d = true ↔
        ∃ u ∈ us, u.year = d.year ∧ u.month = d.month ∧ u.day = d.day) ∧
      (∀ t t' : Nat,
        isDateUnavailable us { d with msOfDay := t } =
          isDateUnavailable us { d with msOfDay := t' }) ∧
      (∀ g : JSDate → Nat,
        isDateUnavailable (us.map (fun u => { u with msOfDay := g u })) d =
          isDateUnavailable us d) := by
  refine ⟨?_, fun t t' => rfl, ?_⟩
  · simp [isDateUnavailable, List.any_eq_true, and_assoc]
  · intro g
    rw [isDateUnavailable, List.any_map]
    rfl

/-! ## C7 : room selection fetches the dependent list -/

/-- C7: when the watched room id changes to a non-empty value, the
effect issues exactly one `getUnavailableDates` call for it, stores the
fetched dates, and sets the selected room to a room of the list with
that id, or to `null` when none exists; on an empty room id nothing
happens. -/
theorem C7_room_selection_effect (s : ContextState) (r : String)
    (fetched : List JSDate) :
    (r ≠ "" →
      (fetchUnavailableDatesEffect s r fetched).2 =
          [ApiCall.getUnavailableDates r] ∧
        (fetchUnavailableDatesEffect s r fetched).1.unavailableDates = fetched ∧
        (∀ room,
          (fetchUnavailableDatesEffect s r fetched).1.selectedRoom = some room →
            room ∈ s.rooms ∧ room.id = r) ∧
        ((fetchUnavailableDatesEffect s r fetched).1.selectedRoom = none →
          ∀ room ∈ s.rooms, room.id ≠ r)) ∧
      (r = "" → fetchUnavailableDatesEffect s r fetched = (s, [])) := by
  constructor
  · intro hr
    rw [fetchUnavailableDatesEffect, if_neg hr]
    refine ⟨rfl, rfl, ?_, ?_⟩
    · intro room hroom
      simp only at hroom
      refine ⟨List.mem_of_find?_eq_some hroom, ?_⟩
      have hpred := List.find?_some hroom
      simpa using hpred
    · intro hnone room hmem
      simp only at hnone
      rw [List.find?_eq_none] at hnone
      have := hnone room hmem
      simpa using this
  · intro hr
    rw [fetchUnavailableDatesEffect, if_pos hr]

/-- Witness for C7 at a one-room list and the room id used by the
repo's own selection test. -/
theorem C7_room_selection_effect_witness :
    (fetchUnavailableDatesEffect
        { defaultContextState with rooms := [sampleRoom] } "1" []).2 =
      [ApiCall.getUnavailableDates "1"] :=
  ((C7_room_selection_effect
      { defaultContextState with rooms := [sampleRoom] } "1" []).1
    (by decide)).1

/-! ## C8 : the state container holds exactly seven pieces -/

/-- C8: `BookingProvider` declares exactly the seven state cells named
in the claim (no duplicates), and a `ContextState` is fully determined
by those seven projections — there is no further state. -/
theorem C8_seven_state_cells :
    providerStateCells.length = 7 ∧ providerStateCells.Nodup ∧
      providerStateCells =
        ["rooms", "selectedRoom", "bookingData", "unavailableDates",
         "isLoading", "error", "success"] ∧
      (∀ s t : ContextState,
        s.rooms = t.rooms → s.selectedRoom = t.selectedRoom →
        s.bookingData = t.bookingData →
        s.unavailableDates = t.unavailableDates →
        s.isLoading = t.isLoading → s.error = t.error →
        s.success = t.success → s = t) := by
  refine ⟨rfl, by decide, rfl, ?_⟩
  intro s t h1 h2 h3 h4 h5 h6 h7
  cases s
  cases t
  simp_all

/-- Witness for C8 at the default context value. -/
theorem C8_seven_state_cells_witness :
    defaultContextState = defaultContextState :=
  C8_seven_state_cells.2.2.2 defaultContextState defaultContextState
    rfl rfl rfl rfl rfl rfl rfl

/-! ## C9 : the schema accepts past check-in dates -/

/-- C9: client-side validation succeeds on a form whose check-in date
lies strictly before the current date, provided the other fields are
valid: the schema never consults the current date; the today-or-future
restriction is only the check-in date picker's `minDate`, which is set
to the current date. -/
theorem C9_past_check_in_accepted (f : BookingFormValues) (today ci : JSDate)
    (hci : f.check_in_date = some ci) (_hpast : jsLt ci today = true)
    (hg : f.guest_name ≠ "") (hr : f.room_id ≠ "")
    (hco : ∃ co, f.check_out_date = some co ∧ jsLe ci co = true)
    (hp : promoFieldValid f.promo_code = true) :
    validateForm f = true ∧ checkInPickerMinDate today = today := by
  refine ⟨?_, rfl⟩
  obtain ⟨co, hco1, hco2⟩ := hco
  rw [validateForm, hci, hco1]
  simp [guestNameFieldValid, roomIdFieldValid, checkInFieldValid,
    checkOutFieldValid, hg, hr, hp, hco2]

/-- Witness for C9: a January 2020 check-in, strictly before the sample
current date October 11, 2026, passes the schema. -/
theorem C9_past_check_in_accepted_witness :
    validateForm pastCheckInForm = true ∧
      checkInPickerMinDate ⟨2026, 9, 11, 0⟩ = ⟨2026, 9, 11, 0⟩ :=
  C9_past_check_in_accepted pastCheckInForm ⟨2026, 9, 11, 0⟩ ⟨2020, 0, 15, 0⟩
    rfl (by decide) (by decide) (by decide)
    ⟨⟨2020, 0, 16, 0⟩, rfl, by decide⟩ (by decide)

/-! ## C10 : submission failure leaves the booking state unchanged -/

/-- C10: whenever `createBooking` rejects, the shared `bookingData` is
left untouched and the success message ends up `null` (the handler
clears it on entry and only the success path sets it); and in every
outcome the `finally` block resets the loading flag to false. -/
theorem C10_failure_preserves_state (s : ContextState)
    (data : BookingFormValues) (resp : ApiResponse) :
    (onSubmit s data resp).state.isLoading = false ∧
      (∀ m e, resp = ApiResponse.err m e →
        (onSubmit s data resp).state.bookingData = s.bookingData ∧
          (onSubmit s data resp).state.success = none) := by
  constructor
  · cases resp with
    | ok => rfl
    | err m e =>
      cases e with
      | none => rfl
      | some errs => rfl
  · rintro m e rfl
    cases e with
    | none => exact ⟨rfl, rfl⟩
    | some errs => exact ⟨rfl, rfl⟩

/-- Witness for C10 at a rejection without a structured body. -/
theorem C10_failure_preserves_state_witness :
    (onSubmit defaultContextState sampleValidForm
        (ApiResponse.err none none)).state.bookingData =
        defaultContextState.bookingData ∧
      (onSubmit defaultContextState sampleValidForm
        (ApiResponse.err none none)).state.success = none :=
  (C10_failure_preserves_state defaultContextState sampleValidForm
      (ApiResponse.err none none)).2 none none rfl
